import Mathlib

/-!
Shallow embedding of the frame-pacing / present-barrier core of
`RenderThread.cpp` / `RenderThread.h` (nvpro-samples/dx12_present_barrier).

Modelling conventions:
* Machine integers (`UINT64`, `NvU32`, `std::uint32_t`) are `Nat`, with an
  explicit `% 2^32` where the source's 32-bit wraparound matters
  (`m_frameCount`, `m_linesPosOffset`, the sleep-interval arithmetic).
  `std::int32_t` values are `Int` with explicit two's-complement
  reinterpretation where the source converts.
* GPU / OS calls are modelled by environment records: values the outside
  world returns (fence completed values, `WaitForSingleObject` outcomes,
  `GetCurrentBackBufferIndex`, DXGI descriptors) are inputs, and calls the
  code issues (`Present`, `Signal`, `NvAPI_...`) are recorded as effect
  flags in the result.
* `HR_CHECK` / `CHECK_NV` assert on failure; abnormal failures of calls the
  source wraps in them (e.g. `WAIT_FAILED` from `WaitForSingleObject`,
  `EnumOutputs` failures) abort the process and are outside the model, so a
  `WaitForSingleObject` on the sync event has exactly the two outcomes
  `WAIT_OBJECT_0` and `WAIT_TIMEOUT` here.
* The swap chain is modelled by whether it exists, its current back-buffer
  index (advanced by `Present`, reset by recreation/`ResizeBuffers`), and
  the per-slot bookkeeping the code keeps (`m_allocatorFrameIndices`).
-/

/-- `enum class DisplayMode` of `RenderThread.h`. -/
inductive DisplayMode where
  | WINDOWED
  | BORDERLESS
  | FULLSCREEN
deriving DecidableEq, Repr

/-- `struct Configuration` of `RenderThread.h` (the fields the modelled code
reads).  `uint32` fields are `Nat`; `m_outputIndex` is `Int` (`-1` = auto). -/
structure Configuration where
  m_startupDisplayMode : String
  m_testMode : String
  m_frameCounterFilePath : String
  m_disablePresentBarrier : Bool
  m_stereo : Bool
  m_showVerticalLines : Bool
  m_showHorizontalLines : Bool
  m_scrolling : Bool
  m_quadroSync : Bool
  m_testModeInterval : Nat
  m_numLines : Nat
  m_lineSpeedInPixels : Nat
  m_sleepIntervalInMilliseconds : Nat
  m_syncTimeoutMillis : Nat
  m_outputIndex : Int
  m_winSize : Nat × Nat
deriving DecidableEq, Repr

/-- The mutable fields of `class RenderThread` the modelled member functions
read or write, plus the modelled swap-chain bookkeeping.
`m_presentBarrierFrameStats` is the `NV_PRESENT_BARRIER_FRAME_STATISTICS`
snapshot, abstracted to an opaque tag (`Nat`): the code only ever overwrites
it wholesale from `NvAPI_QueryPresentBarrierFrameStatistics`.
`m_presentBarrierClient` records whether the client handle is non-null,
`m_swapChainExists` whether `m_swapChain != nullptr`. -/
structure RenderThreadState where
  m_config : Configuration
  m_linesPosOffset : Nat
  m_requestToggleStereo : Bool
  m_requestResetFrameCount : Bool
  m_skipNextSwap : Bool
  m_frameCounterFileOpen : Bool
  m_frameIdx : Nat
  m_swapChainExists : Bool
  currentBackBufferIndex : Nat
  m_allocatorFrameIndices : List Nat
  m_presentBarrierClient : Bool
  m_displayMode : DisplayMode
  m_requestedDisplayMode : DisplayMode
  m_presentBarrierChangeRequested : Bool
  m_presentBarrierJoined : Bool
  m_frameCount : Nat
  m_syncInterval : Nat
  m_presentBarrierFrameStats : Nat
deriving DecidableEq, Repr

/-- `RenderThread::forcePresentBarrierChange` (RenderThread.cpp:633-652):
when the barrier is not disabled, join (`NvAPI_JoinPresentBarrier`) if not
joined, else leave (`NvAPI_LeavePresentBarrier`); when disabled, do nothing. -/
def forcePresentBarrierChange (s : RenderThreadState) : RenderThreadState :=
  if !s.m_config.m_disablePresentBarrier then
    if !s.m_presentBarrierJoined then
      { s with m_presentBarrierJoined := true }
    else
      { s with m_presentBarrierJoined := false }
  else
    s

/-- Reinterpretation of a `uint32` bit pattern as `int32` (two's complement),
as performed by `static_cast` / narrowing in `changeSleepInterval`. -/
def int32OfUInt32 (u : Nat) : Int :=
  if u < 2 ^ 31 then (u : Int) else (u : Int) - 2 ^ 32

/-- `RenderThread::changeSleepInterval` (RenderThread.cpp:578-586):
`std::int32_t millis = m_config.m_sleepIntervalInMilliseconds + deltaMillis;`
performs the addition in `uint32` arithmetic (mod `2^32`) and reinterprets
the result as `int32`; the interval is updated only when `0 <= millis`. -/
def changeSleepInterval (s : RenderThreadState) (deltaMillis : Int) : RenderThreadState :=
  let millis : Int :=
    int32OfUInt32 ((((s.m_config.m_sleepIntervalInMilliseconds : Int) + deltaMillis) % 2 ^ 32).toNat)
  if 0 ≤ millis then
    { s with m_config := { s.m_config with m_sleepIntervalInMilliseconds := millis.toNat } }
  else
    s

/-- Success flags for the external steps of `RenderThread::init` that can
fail for reasons outside the configuration: device creation
(`m_context.init`), the present-barrier hardware query, shader-binary
loading, and the three ImGui initialization steps (collapsed to one flag). -/
structure InitEnv where
  contextInitOk : Bool
  presentBarrierSupported : Bool
  shadersOk : Bool
  imguiOk : Bool
deriving DecidableEq, Repr

/-- Result of `RenderThread::init`: whether it returned `true`, and whether
any GPU device/resource had been created by the time it returned
(`m_context.init` is the first step that creates GPU state). -/
structure InitResult where
  success : Bool
  gpuResourcesCreated : Bool
deriving DecidableEq, Repr

/-- The four configuration validations at the top of `RenderThread::init`
(RenderThread.cpp:116-136), as one predicate. -/
def badTestConfig (cfg : Configuration) : Bool :=
  (cfg.m_testMode == "f" && cfg.m_startupDisplayMode == "b")
  || (cfg.m_testMode == "b" && cfg.m_startupDisplayMode == "f")
  || (cfg.m_testMode != "n" && cfg.m_testMode != "f" && cfg.m_testMode != "b" && cfg.m_testMode != "i")
  || (cfg.m_testModeInterval ≤ 1)

/-- `RenderThread::init` (RenderThread.cpp:114-353) at the granularity of its
early-return structure.  The four configuration checks run first; the frame
counter file (not a GPU resource) is opened next; `m_context.init` creates
the device; fences, heaps, the swap chain, shaders, pipelines, the startup
display-mode switch, `forcePresentBarrierChange` and ImGui follow on the
success path.  The startup-display-mode spelling is validated only after the
GPU resources exist (RenderThread.cpp:321-325). -/
def init (cfg : Configuration) (env : InitEnv) : InitResult :=
  if cfg.m_testMode == "f" && cfg.m_startupDisplayMode == "b" then ⟨false, false⟩
  else if cfg.m_testMode == "b" && cfg.m_startupDisplayMode == "f" then ⟨false, false⟩
  else if cfg.m_testMode != "n" && cfg.m_testMode != "f" && cfg.m_testMode != "b"
      && cfg.m_testMode != "i" then ⟨false, false⟩
  else if cfg.m_testModeInterval ≤ 1 then ⟨false, false⟩
  else if !env.contextInitOk then ⟨false, false⟩
  else if !cfg.m_disablePresentBarrier && !env.presentBarrierSupported then ⟨false, true⟩
  else if !env.shadersOk then ⟨false, true⟩
  else if cfg.m_startupDisplayMode != "b" && cfg.m_startupDisplayMode != "borderless"
      && cfg.m_startupDisplayMode != "f" && cfg.m_startupDisplayMode != "fullscreen"
      && cfg.m_startupDisplayMode != "w" && cfg.m_startupDisplayMode != "windowed" then ⟨false, true⟩
  else if !env.imguiOk then ⟨false, true⟩
  else ⟨true, true⟩

/-- `RenderThread::start` (RenderThread.cpp:31-59): spawns the thread, waits
for the status handoff, and returns `m_status != Status::INITIAZATION_ERROR`,
i.e. whether `init` succeeded. -/
def start (cfg : Configuration) (env : InitEnv) : Bool :=
  (init cfg env).success

/-- `RenderThread::requestPresentBarrierChange` (RenderThread.cpp:626-631):
sets `m_presentBarrierChangeRequested` and returns
`maxWaitMillis == 0 || wait_for(...) == no_timeout` (short-circuit: the
condition-variable wait runs only when `maxWaitMillis != 0`).
`wokenInTime` is whether the bounded wait was notified before its timeout
(the render thread's `notify_all` after servicing the request).  The result
is `(state, return value, whether the calling thread blocked on the wait)`. -/
def requestPresentBarrierChange (s : RenderThreadState) (maxWaitMillis : Nat)
    (wokenInTime : Bool) : RenderThreadState × Bool × Bool :=
  let s1 := { s with m_presentBarrierChangeRequested := true }
  if maxWaitMillis == 0 then (s1, true, false) else (s1, wokenInTime, true)

/-- Outcome of `WaitForSingleObject(m_syncEvt, m_config.m_syncTimeoutMillis)`
on the auto-reset sync event.  `WAIT_FAILED`/`WAIT_ABANDONED` hit `HR_CHECK`'s
assertion and are outside the model. -/
inductive WaitResult where
  | object0
  | timeout
deriving DecidableEq, Repr

/-- What the outside world does for one fence-wait attempt inside
`RenderThread::sync`: the value `m_frameFence->GetCompletedValue()` returns,
and how the event wait ends. -/
structure SyncAttemptEnv where
  completedValue : Nat
  waitResult : WaitResult
deriving DecidableEq, Repr

/-- `RenderThread::sync` (RenderThread.cpp:546-569) with explicit fuel for
its self-call.  Per attempt: return `true` if the frame fence already
completed `m_frameIdx`; otherwise arm the event and wait; on `WAIT_OBJECT_0`
return `true`; on `WAIT_TIMEOUT`, if the present barrier is joined, force a
barrier leave and retry (`return sync();`), else return `false`.
`env` gives each attempt's external outcomes; the result's third component
counts the attempts performed. -/
def syncFuel : Nat → RenderThreadState → (Nat → SyncAttemptEnv) → RenderThreadState × Bool × Nat
  | 0, s, _ => (s, false, 0)
  | fuel + 1, s, env =>
    if (env 0).completedValue = s.m_frameIdx then
      (s, true, 1)
    else
      match (env 0).waitResult with
      | WaitResult.object0 => (s, true, 1)
      | WaitResult.timeout =>
        if s.m_presentBarrierJoined then
          let r := syncFuel fuel (forcePresentBarrierChange s) (fun i => env (i + 1))
          (r.1, r.2.1, r.2.2 + 1)
        else
          (s, false, 1)

/-- `RenderThread::sync` with the fuel that suffices on every reachable state
(the retry branch forces the barrier leave that closes it, see the
termination theorem below). -/
def sync (s : RenderThreadState) (env : Nat → SyncAttemptEnv) : RenderThreadState × Bool × Nat :=
  syncFuel 2 s env

/-- `RenderThread::releasePresentBarrier` (RenderThread.cpp:1092-1104):
when the barrier is enabled and a client handle exists, leave the barrier if
joined, then destroy the client. -/
def releasePresentBarrier (s : RenderThreadState) : RenderThreadState :=
  if !s.m_config.m_disablePresentBarrier && s.m_presentBarrierClient then
    let s1 := if s.m_presentBarrierJoined then { s with m_presentBarrierJoined := false } else s
    { s1 with m_presentBarrierClient := false }
  else
    s

/-- External inputs of `RenderThread::swapResize`: the current swap-chain
dimensions (`GetDesc1`) and the per-attempt outcomes for its `sync()` call. -/
structure SwapResizeEnv where
  descWidth : Nat
  descHeight : Nat
  syncEnv : Nat → SyncAttemptEnv

/-- Calls `RenderThread::swapResize` issues: the GPU drain, swap-chain
recreation (`CreateSwapChainForHwnd`) vs. in-place `ResizeBuffers`, and
`NvAPI_D3D12_RegisterPresentBarrierResources`. -/
structure SwapResizeEffects where
  didSync : Bool
  recreatedSwapChain : Bool
  resizedBuffers : Bool
  registeredBarrierResources : Bool
deriving DecidableEq, Repr

/-- `RenderThread::swapResize` (RenderThread.cpp:654-789).  No-op unless
forced or the dimensions/stereo changed; otherwise drain the GPU, then either
recreate the swap chain (first call or stereo toggled; this also re-creates
the present-barrier client via `releasePresentBarrier` +
`NvAPI_D3D12_CreatePresentBarrierClient`) or `ResizeBuffers` in place; both
paths reset the current back-buffer index and re-register the back buffers
with the barrier when it is enabled.  Render-target views and the gui
texture are GPU-side effects not tracked here. -/
def swapResize (s : RenderThreadState) (width height : Nat) (stereo force : Bool)
    (env : SwapResizeEnv) : RenderThreadState × SwapResizeEffects :=
  if !force && s.m_swapChainExists && width == env.descWidth && height == env.descHeight
      && stereo == s.m_config.m_stereo then
    (s, ⟨false, false, false, false⟩)
  else
    let s1 := (sync s env.syncEnv).1
    if !s1.m_swapChainExists || stereo != s1.m_config.m_stereo then
      let s2 := { s1 with m_swapChainExists := true, currentBackBufferIndex := 0,
                          m_config := { s1.m_config with m_stereo := stereo } }
      let s3 :=
        if !s2.m_config.m_disablePresentBarrier then
          { releasePresentBarrier s2 with m_presentBarrierClient := true }
        else
          s2
      (s3, ⟨true, true, false, !s3.m_config.m_disablePresentBarrier⟩)
    else
      let s2 := { s1 with currentBackBufferIndex := 0 }
      (s2, ⟨true, false, true, !s2.m_config.m_disablePresentBarrier⟩)

/-- `DXGI_OUTPUT_DESC::DesktopCoordinates` of the resolved output. -/
structure OutputDesc where
  left : Int
  top : Int
  right : Int
  bottom : Int
deriving DecidableEq, Repr

/-- External inputs of `RenderThread::trySetDisplayMode`: the swap chain's
actual fullscreen state (`GetFullscreenState`), whether `GetContainingOutput`
succeeds (`false` = `DXGI_ERROR_UNSUPPORTED`; other failures abort via
`HR_CHECK`), the resolved output's desktop rectangle, the mode
`FindClosestMatchingMode` returns, and the environments of the nested
`sync()` and `swapResize` calls. -/
structure TrySetEnv where
  actualFullscreen : Bool
  containingOutputSupported : Bool
  outputDesc : OutputDesc
  matchedWidth : Nat
  matchedHeight : Nat
  syncEnv : Nat → SyncAttemptEnv
  resizeEnv : SwapResizeEnv

/-- Calls `RenderThread::trySetDisplayMode` issues: the GPU drain
(`sync()`), `SetFullscreenState`, the window-owner callbacks
(`setDecorated`, `setPosAndSize`), and the final forced `swapResize`. -/
structure TrySetEffects where
  didSync : Bool
  didSetFullscreenState : Bool
  didSetDecorated : Bool
  didSetPosAndSize : Bool
  didSwapResize : Bool
deriving DecidableEq, Repr

def noTrySetEffects : TrySetEffects := ⟨false, false, false, false, false⟩

/-- `RenderThread::trySetDisplayMode` (RenderThread.cpp:999-1090).
Forces the requested mode to `WINDOWED` when the swap chain's actual
fullscreen state disagrees with the tracked mode; no-op when the (possibly
forced) request equals the current mode; abandons the transition when
automatic output resolution (`m_outputIndex == -1`) fails with
`DXGI_ERROR_UNSUPPORTED`; otherwise drains the GPU, performs the
fullscreen/borderless/windowed transition, updates both mode fields and
force-resizes the swap chain.  Returns the (new) `m_displayMode`. -/
def trySetDisplayMode (s : RenderThreadState) (displayMode0 : DisplayMode) (env : TrySetEnv) :
    RenderThreadState × DisplayMode × TrySetEffects :=
  let displayMode :=
    if env.actualFullscreen ≠ decide (s.m_displayMode = DisplayMode.FULLSCREEN) then
      DisplayMode.WINDOWED
    else
      displayMode0
  if displayMode = s.m_displayMode then
    (s, s.m_displayMode, noTrySetEffects)
  else if s.m_config.m_outputIndex = -1 ∧ env.containingOutputSupported = false then
    (s, s.m_displayMode, noTrySetEffects)
  else
    let s1 := (sync s env.syncEnv).1
    if displayMode = DisplayMode.FULLSCREEN then
      let s2 := { s1 with m_displayMode := displayMode, m_requestedDisplayMode := displayMode }
      let r := swapResize s2 env.matchedWidth env.matchedHeight s2.m_config.m_stereo true env.resizeEnv
      (r.1, r.1.m_displayMode, ⟨true, true, false, false, true⟩)
    else
      let exitedFullscreen := decide (s1.m_displayMode = DisplayMode.FULLSCREEN)
      let wh : Nat × Nat :=
        if displayMode = DisplayMode.BORDERLESS then
          ((env.outputDesc.right - env.outputDesc.left).toNat,
           (env.outputDesc.bottom - env.outputDesc.top).toNat)
        else
          s.m_config.m_winSize
      let s2 := { s1 with m_displayMode := displayMode, m_requestedDisplayMode := displayMode }
      let r := swapResize s2 wh.1 wh.2 s2.m_config.m_stereo true env.resizeEnv
      (r.1, r.1.m_displayMode, ⟨true, exitedFullscreen, true, true, true⟩)

/-- External inputs of one `RenderThread::renderFrame` call:
`m_frameFence->GetCompletedValue()` at the backpressure check, how the
event wait ends, and the fence's completed value at the instant the wait
returns.  The event is armed by `SetEventOnCompletion(waitForFrameIdx, ...)`
(either in this call or, on a skip retry, in the previous call for the same
slot and the same index), so a `WAIT_OBJECT_0` outcome means the fence has
completed `waitForFrameIdx`. -/
structure RenderFrameEnv where
  fenceCompletedAtCheck : Nat
  waitResult : WaitResult
  fenceCompletedAtWaitReturn : Nat
deriving DecidableEq, Repr

/-- How a `renderFrame` call ended: early return with `m_skipNextSwap` set
(backpressure timeout), or full command recording and submission.  The
`rendered` payload is the frame fence's completed value at the moment the
call proceeded past the backpressure wait (and reset the slot's command
allocators). -/
inductive FrameOutcome where
  | skipped
  | rendered (fenceValueObserved : Nat)
deriving DecidableEq, Repr

/-- Value observed by the backpressure wait when the iteration proceeded;
`0` for a skipped iteration. -/
def FrameOutcome.fenceValue : FrameOutcome → Nat
  | FrameOutcome.skipped => 0
  | FrameOutcome.rendered v => v

/-- The counter updates at the top of `RenderThread::renderFrame`
(RenderThread.cpp:381-388): `m_frameCount++` unless the Quadro Sync counter
is authoritative, `++m_linesPosOffset` when scrolling is off; both are
`NvU32`. -/
def advanceCounters (s : RenderThreadState) : RenderThreadState :=
  let s1 := if !s.m_config.m_quadroSync then
      { s with m_frameCount := (s.m_frameCount + 1) % 2 ^ 32 }
    else
      s
  if !s1.m_config.m_scrolling then
    { s1 with m_linesPosOffset := (s1.m_linesPosOffset + 1) % 2 ^ 32 }
  else
    s1

/-- `RenderThread::renderFrame` (RenderThread.cpp:355-489).  Test-mode input
injection (`SendInput`) and `Sleep` are external effects without modelled
state; then the backpressure wait: read the allocator frame index of the
current back-buffer slot, and if the frame fence has not completed it, wait
on the sync event (arming it first unless a previous timeout already left it
armed for this same index); a timeout sets `m_skipNextSwap` and returns
early.  Proceeding clears `m_skipNextSwap` and records/submits the frame's
command lists (allocator resets, barriers, draws, gui-fence ordering) —
GPU-side effects summarised by the `rendered` outcome. -/
def renderFrame (s0 : RenderThreadState) (env : RenderFrameEnv) :
    RenderThreadState × FrameOutcome :=
  let s := advanceCounters s0
  let waitForFrameIdx := s.m_allocatorFrameIndices.getD s.currentBackBufferIndex 0
  if env.fenceCompletedAtCheck < waitForFrameIdx then
    match env.waitResult with
    | WaitResult.timeout => ({ s with m_skipNextSwap := true }, FrameOutcome.skipped)
    | WaitResult.object0 =>
      ({ s with m_skipNextSwap := false }, FrameOutcome.rendered env.fenceCompletedAtWaitReturn)
  else
    ({ s with m_skipNextSwap := false }, FrameOutcome.rendered env.fenceCompletedAtCheck)

/-- External inputs of one `RenderThread::swapBuffers` call: the statistics
snapshot `NvAPI_QueryPresentBarrierFrameStatistics` fills in, the counter
`NvAPI_D3D1x_QueryFrameCount` returns, the swap-chain dimensions read for
the stereo-toggle resize, and the environments of the nested `swapResize`,
`trySetDisplayMode` and `sync` calls. -/
structure SwapBuffersEnv where
  statsSnapshot : Nat
  queriedFrameCount : Nat
  stereoDescWidth : Nat
  stereoDescHeight : Nat
  stereoResizeEnv : SwapResizeEnv
  trySetEnv : TrySetEnv
  syncEnv : Nat → SyncAttemptEnv

/-- Calls `RenderThread::swapBuffers` issues: `Present`,
`Signal(m_frameFence, m_frameIdx)`, the barrier statistics query, the
Quadro Sync frame-count reset, the frame-counter file write, and the
`notify_all` acknowledging a serviced barrier-change request. -/
structure SwapBuffersEffects where
  didPresent : Bool
  didSignalFrameFence : Bool
  didQueryStats : Bool
  didResetFrameCount : Bool
  wroteFrameCounterFile : Bool
  didNotify : Bool
deriving DecidableEq, Repr

/-- The pending-barrier-change service block at the end of
`RenderThread::swapBuffers` (RenderThread.cpp:531-542): when a change was
requested, drain via `sync()` (which may itself leave the barrier), call
`forcePresentBarrierChange()` only if the drain did not already change the
joined state, clear the pending flag and wake the waiter (`notify_all`,
returned as the second component). -/
def servicePresentBarrierRequest (s : RenderThreadState) (env : Nat → SyncAttemptEnv) :
    RenderThreadState × Bool :=
  if s.m_presentBarrierChangeRequested then
    let before := s.m_presentBarrierJoined
    let r3 := sync s env
    let s3 :=
      if before == r3.1.m_presentBarrierJoined then forcePresentBarrierChange r3.1 else r3.1
    ({ s3 with m_presentBarrierChangeRequested := false }, true)
  else
    (s, false)

/-- `RenderThread::swapBuffers` (RenderThread.cpp:491-544).  Unless the
iteration was marked to be skipped: stamp the current slot with the
incremented `m_frameIdx`, `Present` (which advances the swap chain to the
next back buffer), signal the frame fence with `m_frameIdx`, and — when the
barrier is enabled and joined — refresh the statistics snapshot, service the
Quadro Sync counter, and append to the frame-counter file; then service a
pending stereo toggle.  In every call: apply the requested display mode via
`trySetDisplayMode`, and service a pending present-barrier change request
(`sync()` first; `forcePresentBarrierChange()` only if the drain did not
already change the joined state), waking any waiter. -/
def swapBuffers (s : RenderThreadState) (env : SwapBuffersEnv) :
    RenderThreadState × SwapBuffersEffects :=
  let firstBlock : RenderThreadState × SwapBuffersEffects :=
    if s.m_skipNextSwap then
      (s, ⟨false, false, false, false, false, false⟩)
    else
      let frameIdx := s.m_frameIdx + 1
      let sA := { s with
        m_frameIdx := frameIdx,
        m_allocatorFrameIndices := s.m_allocatorFrameIndices.set s.currentBackBufferIndex frameIdx }
      let sB := { sA with
        currentBackBufferIndex :=
          (sA.currentBackBufferIndex + 1) % sA.m_allocatorFrameIndices.length }
      let queryStats := !sB.m_config.m_disablePresentBarrier && sB.m_presentBarrierJoined
      let sC :=
        if queryStats then
          let sC1 := { sB with m_presentBarrierFrameStats := env.statsSnapshot }
          if sC1.m_config.m_quadroSync then
            let sC2 :=
              if sC1.m_requestResetFrameCount then
                { sC1 with m_requestResetFrameCount := false }
              else
                sC1
            { sC2 with m_frameCount := env.queriedFrameCount }
          else
            sC1
        else
          sB
      let didReset := queryStats && sB.m_config.m_quadroSync && sB.m_requestResetFrameCount
      let wrote := queryStats && sB.m_frameCounterFileOpen
      let sD :=
        if sC.m_requestToggleStereo then
          let r := swapResize sC env.stereoDescWidth env.stereoDescHeight
            (!sC.m_config.m_stereo) false env.stereoResizeEnv
          { r.1 with m_requestToggleStereo := false }
        else
          sC
      (sD, ⟨true, true, queryStats, didReset, wrote, false⟩)
  let s1 := firstBlock.1
  let e1 := firstBlock.2
  let r2 := trySetDisplayMode s1 s1.m_requestedDisplayMode env.trySetEnv
  let s2 := { r2.1 with m_requestedDisplayMode := r2.2.1 }
  let r3 := servicePresentBarrierRequest s2 env.syncEnv
  (r3.1, { e1 with didNotify := r3.2 })

/-! ### Concrete fixtures used by witnesses -/

/-- A `Configuration` with the header's default values (`RenderThread.h:28-47`),
window size 800×600. -/
def cfgBase : Configuration :=
  { m_startupDisplayMode := "b"
    m_testMode := "n"
    m_frameCounterFilePath := ""
    m_disablePresentBarrier := false
    m_stereo := false
    m_showVerticalLines := true
    m_showHorizontalLines := true
    m_scrolling := true
    m_quadroSync := false
    m_testModeInterval := 120
    m_numLines := 4
    m_lineSpeedInPixels := 1
    m_sleepIntervalInMilliseconds := 0
    m_syncTimeoutMillis := 1000
    m_outputIndex := -1
    m_winSize := (800, 600) }

/-- A plausible running state: windowed, barrier enabled but not joined,
three back buffers, three frames presented. -/
def stateBase : RenderThreadState :=
  { m_config := cfgBase
    m_linesPosOffset := 0
    m_requestToggleStereo := false
    m_requestResetFrameCount := false
    m_skipNextSwap := false
    m_frameCounterFileOpen := false
    m_frameIdx := 3
    m_swapChainExists := true
    currentBackBufferIndex := 0
    m_allocatorFrameIndices := [1, 2, 3]
    m_presentBarrierClient := true
    m_displayMode := DisplayMode.WINDOWED
    m_requestedDisplayMode := DisplayMode.WINDOWED
    m_presentBarrierChangeRequested := false
    m_presentBarrierJoined := false
    m_frameCount := 3
    m_syncInterval := 0
    m_presentBarrierFrameStats := 0 }

/-- `stateBase` with the present barrier joined. -/
def stateJoined : RenderThreadState := { stateBase with m_presentBarrierJoined := true }

/-- `stateBase` with the present barrier disabled in configuration. -/
def stateDisabled : RenderThreadState :=
  { stateBase with m_config := { cfgBase with m_disablePresentBarrier := true } }

/-- A fence environment whose every wait attempt succeeds with the frame
fence already at `stateBase`'s `m_frameIdx`. -/
def syncEnvOk : Nat → SyncAttemptEnv := fun _ => ⟨3, WaitResult.object0⟩

/-- A fence environment whose every wait attempt times out with the fence
stuck at `0`. -/
def syncEnvStuck : Nat → SyncAttemptEnv := fun _ => ⟨0, WaitResult.timeout⟩

def resizeEnvBase : SwapResizeEnv := ⟨800, 600, syncEnvOk⟩

/-- `trySetDisplayMode` environment: actual fullscreen state consistent with
a windowed current mode, containing output resolvable. -/
def trySetEnvConsistent : TrySetEnv :=
  ⟨false, true, ⟨0, 0, 1920, 1080⟩, 1920, 1080, syncEnvOk, resizeEnvBase⟩

/-- `trySetDisplayMode` environment: swap chain reports fullscreen while the
tracked mode is windowed (external desync). -/
def trySetEnvMismatch : TrySetEnv :=
  ⟨true, true, ⟨0, 0, 1920, 1080⟩, 1920, 1080, syncEnvOk, resizeEnvBase⟩

/-- `trySetDisplayMode` environment: `GetContainingOutput` fails with
`DXGI_ERROR_UNSUPPORTED`. -/
def trySetEnvUnsupported : TrySetEnv :=
  ⟨false, false, ⟨0, 0, 1920, 1080⟩, 1920, 1080, syncEnvOk, resizeEnvBase⟩

/-! ### Helper lemmas (field preservation) -/

theorem forcePresentBarrierChange_preserves (s : RenderThreadState) :
    (forcePresentBarrierChange s).m_config = s.m_config
    ∧ (forcePresentBarrierChange s).m_frameIdx = s.m_frameIdx
    ∧ (forcePresentBarrierChange s).currentBackBufferIndex = s.currentBackBufferIndex
    ∧ (forcePresentBarrierChange s).m_allocatorFrameIndices = s.m_allocatorFrameIndices
    ∧ (forcePresentBarrierChange s).m_presentBarrierFrameStats = s.m_presentBarrierFrameStats
    ∧ (forcePresentBarrierChange s).m_skipNextSwap = s.m_skipNextSwap := by
  unfold forcePresentBarrierChange
  split_ifs <;> simp

theorem syncFuel_preserves (fuel : Nat) (s : RenderThreadState) (env : Nat → SyncAttemptEnv) :
    (syncFuel fuel s env).1.m_config = s.m_config
    ∧ (syncFuel fuel s env).1.m_frameIdx = s.m_frameIdx
    ∧ (syncFuel fuel s env).1.currentBackBufferIndex = s.currentBackBufferIndex
    ∧ (syncFuel fuel s env).1.m_allocatorFrameIndices = s.m_allocatorFrameIndices
    ∧ (syncFuel fuel s env).1.m_presentBarrierFrameStats = s.m_presentBarrierFrameStats := by
  induction fuel generalizing s env with
  | zero => simp [syncFuel]
  | succ n ih =>
    simp only [syncFuel]
    split
    · simp
    · split
      · simp
      · split
        · have h1 := ih (forcePresentBarrierChange s) (fun i => env (i + 1))
          have h2 := forcePresentBarrierChange_preserves s
          exact ⟨h1.1.trans h2.1, h1.2.1.trans h2.2.1, h1.2.2.1.trans h2.2.2.1,
            h1.2.2.2.1.trans h2.2.2.2.1, h1.2.2.2.2.trans h2.2.2.2.2.1⟩
        · simp

theorem advanceCounters_preserves (s : RenderThreadState) :
    (advanceCounters s).m_config = s.m_config
    ∧ (advanceCounters s).m_frameIdx = s.m_frameIdx
    ∧ (advanceCounters s).currentBackBufferIndex = s.currentBackBufferIndex
    ∧ (advanceCounters s).m_allocatorFrameIndices = s.m_allocatorFrameIndices
    ∧ (advanceCounters s).m_displayMode = s.m_displayMode
    ∧ (advanceCounters s).m_requestedDisplayMode = s.m_requestedDisplayMode
    ∧ (advanceCounters s).m_presentBarrierChangeRequested = s.m_presentBarrierChangeRequested
    ∧ (advanceCounters s).m_presentBarrierJoined = s.m_presentBarrierJoined
    ∧ (advanceCounters s).m_requestToggleStereo = s.m_requestToggleStereo
    ∧ (advanceCounters s).m_frameCounterFileOpen = s.m_frameCounterFileOpen
    ∧ (advanceCounters s).m_requestResetFrameCount = s.m_requestResetFrameCount := by
  cases hq : s.m_config.m_quadroSync <;> cases hs : s.m_config.m_scrolling <;>
    simp [advanceCounters, hq, hs]

/-! ### C4 — forcePresentBarrierChange toggles; disabled is a no-op -/

/-- C4: when the present barrier is not disabled in configuration, every call
to `forcePresentBarrierChange` toggles the joined state unconditionally
(join when not joined, leave when joined); when the disable flag is set, the
call changes no state at all. -/
theorem forcePresentBarrierChange_toggles (s : RenderThreadState) :
    (s.m_config.m_disablePresentBarrier = false →
      (forcePresentBarrierChange s).m_presentBarrierJoined = !s.m_presentBarrierJoined)
    ∧ (s.m_config.m_disablePresentBarrier = true → forcePresentBarrierChange s = s) := by
  constructor
  · intro h
    cases hj : s.m_presentBarrierJoined <;> simp [forcePresentBarrierChange, h, hj]
  · intro h
    simp [forcePresentBarrierChange, h]

/-- Witness for C4 at concrete states: toggling from not-joined with the
barrier enabled, and the no-op with the barrier disabled. -/
theorem forcePresentBarrierChange_toggles_witness :
    (forcePresentBarrierChange stateBase).m_presentBarrierJoined = !stateBase.m_presentBarrierJoined
    ∧ forcePresentBarrierChange stateDisabled = stateDisabled :=
  ⟨(forcePresentBarrierChange_toggles stateBase).1 rfl,
   (forcePresentBarrierChange_toggles stateDisabled).2 rfl⟩

/-! ### C3 — the claimed idempotence fails: the operation is a toggle -/

/-- C3 counterexample: `forcePresentBarrierChange` takes no direction — on a
joined controller (barrier enabled) the call leaves, and on a not-joined one
it joins, so an invocation in either state changes the joined flag; there is
no no-op "join while joined" / "leave while not joined" invocation. -/
theorem forcePresentBarrierChange_not_idempotent :
    stateJoined.m_presentBarrierJoined = true
    ∧ (forcePresentBarrierChange stateJoined).m_presentBarrierJoined
        ≠ stateJoined.m_presentBarrierJoined
    ∧ stateBase.m_presentBarrierJoined = false
    ∧ (forcePresentBarrierChange stateBase).m_presentBarrierJoined
        ≠ stateBase.m_presentBarrierJoined := by
  refine ⟨rfl, ?_, rfl, ?_⟩ <;> decide

/-- C3 amended: `forcePresentBarrierChange` is an involution, not idempotent:
two successive calls restore the entire state; a single call never changes
the barrier statistics; and only with the barrier disabled is a single call
a no-op. -/
theorem forcePresentBarrierChange_involution (s : RenderThreadState) :
    forcePresentBarrierChange (forcePresentBarrierChange s) = s
    ∧ (forcePresentBarrierChange s).m_presentBarrierFrameStats = s.m_presentBarrierFrameStats
    ∧ (s.m_config.m_disablePresentBarrier = true → forcePresentBarrierChange s = s) := by
  rcases s with ⟨⟨sdm, tm, fcp, disable, st, svl, shl, scr, qs, tmi, nl, lsp, sim, stm, oi, ws⟩,
    lpo, rts, rrfc, sns, fcfo, fidx, sce, cbbi, afi, pbc, dm, rdm, pbcr, pbj, fc, si, stats⟩
  cases disable <;> cases pbj <;> simp [forcePresentBarrierChange]

/-- Witness for the amended C3 at a concrete disabled state. -/
theorem forcePresentBarrierChange_involution_witness :
    forcePresentBarrierChange (forcePresentBarrierChange stateJoined) = stateJoined
    ∧ forcePresentBarrierChange stateDisabled = stateDisabled :=
  ⟨(forcePresentBarrierChange_involution stateJoined).1,
   (forcePresentBarrierChange_involution stateDisabled).2.2 rfl⟩

/-! ### C10 — changeSleepInterval arithmetic -/

/-- `stateBase` with the sleep interval at `INT32_MAX`. -/
def stateSleepMax : RenderThreadState :=
  { stateBase with m_config := { cfgBase with m_sleepIntervalInMilliseconds := 2147483647 } }

/-- C10 counterexample: with the interval at `INT32_MAX = 2147483647` and
delta `+1`, the mathematical sum `2^31` is nonnegative, yet the stored
interval is left unchanged (the `uint32` sum reinterpreted as `int32` is
negative), contradicting "sets the sleep interval to s + d when
s + d >= 0". -/
theorem changeSleepInterval_overflow_counterexample :
    stateSleepMax.m_config.m_sleepIntervalInMilliseconds = 2147483647
    ∧ (0 : Int) ≤ (2147483647 : Int) + 1
    ∧ (changeSleepInterval stateSleepMax 1).m_config.m_sleepIntervalInMilliseconds
        = 2147483647 := by
  refine ⟨rfl, by decide, ?_⟩
  decide

/-- C10 amended: for a current interval `s < 2^31` and any `int32` delta `d`,
`changeSleepInterval` stores `s + d` when `0 ≤ s + d < 2^31`, and leaves the
state unchanged both when `s + d < 0` and when `s + d ≥ 2^31` (where the
`uint32` sum reinterprets as a negative `int32`); in particular the stored
unsigned interval never wraps to a huge value. -/
theorem changeSleepInterval_amended (s : RenderThreadState) (d : Int)
    (hs : s.m_config.m_sleepIntervalInMilliseconds < 2 ^ 31)
    (hd1 : -(2 ^ 31) ≤ d) (hd2 : d < 2 ^ 31) :
    ((0 ≤ (s.m_config.m_sleepIntervalInMilliseconds : Int) + d
        ∧ (s.m_config.m_sleepIntervalInMilliseconds : Int) + d < 2 ^ 31) →
      (changeSleepInterval s d).m_config.m_sleepIntervalInMilliseconds
        = ((s.m_config.m_sleepIntervalInMilliseconds : Int) + d).toNat)
    ∧ ((s.m_config.m_sleepIntervalInMilliseconds : Int) + d < 0 →
      changeSleepInterval s d = s)
    ∧ (2 ^ 31 ≤ (s.m_config.m_sleepIntervalInMilliseconds : Int) + d →
      changeSleepInterval s d = s) := by
  have hmod : (((s.m_config.m_sleepIntervalInMilliseconds : Int) + d) % 2 ^ 32)
      = if (s.m_config.m_sleepIntervalInMilliseconds : Int) + d < 0 then
          (s.m_config.m_sleepIntervalInMilliseconds : Int) + d + 2 ^ 32
        else
          (s.m_config.m_sleepIntervalInMilliseconds : Int) + d := by
    split <;> omega
  refine ⟨?_, ?_, ?_⟩
  · rintro ⟨h1, h2⟩
    rw [if_neg (by omega)] at hmod
    simp only [changeSleepInterval, int32OfUInt32, hmod]
    split_ifs with ha hb
    · simp only [Int.toNat_natCast]
    · exfalso; omega
    · exfalso; omega
    · exfalso; omega
  · intro h1
    rw [if_pos h1] at hmod
    simp only [changeSleepInterval, int32OfUInt32, hmod]
    split_ifs with ha hb hb
    · exfalso; omega
    · rfl
    · exfalso; omega
    · rfl
  · intro h1
    rw [if_neg (by omega)] at hmod
    simp only [changeSleepInterval, int32OfUInt32, hmod]
    split_ifs with ha hb hb
    · exfalso; omega
    · rfl
    · exfalso; omega
    · rfl

/-- `stateBase` with the sleep interval at 1000 ms. -/
def stateSleep1000 : RenderThreadState :=
  { stateBase with m_config := { cfgBase with m_sleepIntervalInMilliseconds := 1000 } }

/-- Witness for the amended C10: interval 1000, delta −1500 leaves the state
unchanged; delta +500 stores 1500. -/
theorem changeSleepInterval_amended_witness :
    (changeSleepInterval stateSleep1000 500).m_config.m_sleepIntervalInMilliseconds
      = (((stateSleep1000.m_config.m_sleepIntervalInMilliseconds : Int) + 500)).toNat
    ∧ changeSleepInterval stateSleep1000 (-1500) = stateSleep1000 :=
  ⟨(changeSleepInterval_amended stateSleep1000 500 (by decide) (by decide) (by decide)).1
      (by decide),
   (changeSleepInterval_amended stateSleep1000 (-1500) (by decide) (by decide) (by decide)).2.1
      (by decide)⟩

/-! ### C5 — contradictory configuration fails init before GPU resources -/

/-- C5: `start` returns failure whenever the configuration is
self-contradictory — test mode "f" with startup mode "b", test mode "b" with
startup mode "f", a test mode outside {n, f, b, i}, or a test-mode interval
≤ 1 — and these checks precede `m_context.init`, so on such a failure no
GPU device or resource has been created. -/
theorem init_rejects_bad_config (cfg : Configuration) (env : InitEnv)
    (hbad : badTestConfig cfg = true) :
    init cfg env = ⟨false, false⟩ ∧ start cfg env = false := by
  have h1 : init cfg env = ⟨false, false⟩ := by
    unfold init
    by_cases c1 : (cfg.m_testMode == "f" && cfg.m_startupDisplayMode == "b") = true
    · rw [if_pos c1]
    · rw [if_neg c1]
      by_cases c2 : (cfg.m_testMode == "b" && cfg.m_startupDisplayMode == "f") = true
      · rw [if_pos c2]
      · rw [if_neg c2]
        by_cases c3 : (cfg.m_testMode != "n" && cfg.m_testMode != "f" && cfg.m_testMode != "b"
            && cfg.m_testMode != "i") = true
        · rw [if_pos c3]
        · rw [if_neg c3]
          have c4 : cfg.m_testModeInterval ≤ 1 := by
            simp only [badTestConfig, Bool.or_eq_true, c1, c2, c3, Bool.false_eq_true,
              false_or, or_false, decide_eq_true_eq] at hbad
            exact hbad
          rw [if_pos c4]
  exact ⟨h1, by unfold start; rw [h1]⟩

/-- `cfgBase` with the contradictory pair: fullscreen-transition test mode
with borderless startup mode. -/
def cfgBadTest : Configuration :=
  { cfgBase with m_testMode := "f", m_startupDisplayMode := "b" }

def initEnvOk : InitEnv := ⟨true, true, true, true⟩

/-- Witness for C5 at the concrete contradictory configuration of Scenario A. -/
theorem init_rejects_bad_config_witness :
    init cfgBadTest initEnvOk = ⟨false, false⟩ ∧ start cfgBadTest initEnvOk = false :=
  init_rejects_bad_config cfgBadTest initEnvOk (by decide)

/-! ### C6 — requestPresentBarrierChange blocking contract -/

/-- C6: `requestPresentBarrierChange` always marks a barrier change as
pending; with `maxWaitMillis = 0` it returns `true` immediately without
blocking; with `maxWaitMillis > 0` it blocks on the bounded
condition-variable wait and returns `true` exactly when that wait was
notified (the render thread's acknowledgment) before the timeout. -/
theorem requestPresentBarrierChange_contract (s : RenderThreadState)
    (maxWaitMillis : Nat) (woken : Bool) :
    ((requestPresentBarrierChange s maxWaitMillis woken).1.m_presentBarrierChangeRequested = true)
    ∧ (maxWaitMillis = 0 →
        (requestPresentBarrierChange s maxWaitMillis woken).2.1 = true
        ∧ (requestPresentBarrierChange s maxWaitMillis woken).2.2 = false)
    ∧ (0 < maxWaitMillis →
        (requestPresentBarrierChange s maxWaitMillis woken).2.2 = true
        ∧ ((requestPresentBarrierChange s maxWaitMillis woken).2.1 = true ↔ woken = true)) := by
  by_cases h : maxWaitMillis = 0 <;>
    simp [requestPresentBarrierChange, h]

/-- Witness for C6: a zero wait returns `true` without blocking; a 500 ms
wait blocks and reports exactly the wait outcome (here: timeout → `false`). -/
theorem requestPresentBarrierChange_contract_witness :
    ((requestPresentBarrierChange stateBase 0 false).2.1 = true
      ∧ (requestPresentBarrierChange stateBase 0 false).2.2 = false)
    ∧ ((requestPresentBarrierChange stateBase 500 false).2.2 = true
      ∧ ((requestPresentBarrierChange stateBase 500 false).2.1 = true ↔ false = true))
    ∧ (requestPresentBarrierChange stateBase 500 false).1.m_presentBarrierChangeRequested = true :=
  ⟨(requestPresentBarrierChange_contract stateBase 0 false).2.1 rfl,
   (requestPresentBarrierChange_contract stateBase 500 false).2.2 (by decide),
   (requestPresentBarrierChange_contract stateBase 500 false).1⟩

/-! ### C7 — sync terminates, retrying at most once -/

/-- When the barrier is not joined, `syncFuel` makes exactly one attempt and
any positive fuel gives the same result. -/
theorem syncFuel_notJoined (s : RenderThreadState) (env : Nat → SyncAttemptEnv)
    (h : s.m_presentBarrierJoined = false) (fuel : Nat) (hf : 1 ≤ fuel) :
    syncFuel fuel s env = syncFuel 1 s env := by
  obtain ⟨n, rfl⟩ : ∃ n, fuel = n + 1 := ⟨fuel - 1, by omega⟩
  by_cases hc : (env 0).completedValue = s.m_frameIdx
  · simp [syncFuel, hc]
  · cases hw : (env 0).waitResult with
    | object0 => simp [syncFuel, hc, hw]
    | timeout => simp [syncFuel, hc, hw, h]

/-- `syncFuel` never makes more attempts than it has fuel. -/
theorem syncFuel_count_le (fuel : Nat) (s : RenderThreadState) (env : Nat → SyncAttemptEnv) :
    (syncFuel fuel s env).2.2 ≤ fuel := by
  induction fuel generalizing s env with
  | zero => simp [syncFuel]
  | succ n ih =>
    by_cases hc : (env 0).completedValue = s.m_frameIdx
    · simp [syncFuel, hc]
    · cases hw : (env 0).waitResult with
      | object0 => simp [syncFuel, hc, hw]
      | timeout =>
        by_cases hj : s.m_presentBarrierJoined
        · have := ih (forcePresentBarrierChange s) (fun i => env (i + 1))
          simp [syncFuel, hc, hw, hj]
          omega
        · simp [syncFuel, hc, hw, hj]

/-- C7: on every state the render loop can reach (the barrier is never
joined while disabled, since only `forcePresentBarrierChange` joins and it
is a no-op when disabled), `sync` terminates with a bounded recursion: any
fuel ≥ 2 computes the same result as fuel 2, at most two fence-wait attempts
are made (i.e. at most one retry), and the only retry — first attempt timed
out while joined — is preceded by the forced barrier leave that clears the
joined flag, closing the retry branch for the inner call. -/
theorem sync_terminates_bounded (s : RenderThreadState) (env : Nat → SyncAttemptEnv)
    (hinv : s.m_presentBarrierJoined = true → s.m_config.m_disablePresentBarrier = false) :
    (∀ fuel, 2 ≤ fuel → syncFuel fuel s env = sync s env)
    ∧ (sync s env).2.2 ≤ 2
    ∧ (((env 0).completedValue ≠ s.m_frameIdx ∧ (env 0).waitResult = WaitResult.timeout
        ∧ s.m_presentBarrierJoined = true) →
      (forcePresentBarrierChange s).m_presentBarrierJoined = false) := by
  refine ⟨?_, syncFuel_count_le 2 s env, ?_⟩
  · intro fuel hf
    obtain ⟨n, rfl⟩ : ∃ n, fuel = n + 1 := ⟨fuel - 1, by omega⟩
    unfold sync
    by_cases hc : (env 0).completedValue = s.m_frameIdx
    · simp [syncFuel, hc]
    · cases hw : (env 0).waitResult with
      | object0 => simp [syncFuel, hc, hw]
      | timeout =>
        by_cases hj : s.m_presentBarrierJoined
        · have hjf : (forcePresentBarrierChange s).m_presentBarrierJoined = false := by
            simp [forcePresentBarrierChange, hinv hj, hj]
          have h1 := syncFuel_notJoined (forcePresentBarrierChange s)
            (fun i => env (i + 1)) hjf n (by omega)
          have h2 := syncFuel_notJoined (forcePresentBarrierChange s)
            (fun i => env (i + 1)) hjf 1 (by omega)
          simp [syncFuel, hc, hw, hj, h1, h2]
        · simp [syncFuel, hc, hw, hj]
  · rintro ⟨-, -, hj⟩
    simp [forcePresentBarrierChange, hinv hj, hj]

/-- Witness for C7 at a joined state with a fence that never signals: fuel 7
agrees with `sync`, at most two attempts are made, and the pre-retry forced
leave clears the joined flag. -/
theorem sync_terminates_bounded_witness :
    syncFuel 7 stateJoined syncEnvStuck = sync stateJoined syncEnvStuck
    ∧ (sync stateJoined syncEnvStuck).2.2 ≤ 2
    ∧ (forcePresentBarrierChange stateJoined).m_presentBarrierJoined = false :=
  ⟨(sync_terminates_bounded stateJoined syncEnvStuck (fun _ => rfl)).1 7 (by omega),
   (sync_terminates_bounded stateJoined syncEnvStuck (fun _ => rfl)).2.1,
   (sync_terminates_bounded stateJoined syncEnvStuck (fun _ => rfl)).2.2
     ⟨by decide, rfl, rfl⟩⟩

/-! ### C8 / C9 — trySetDisplayMode -/

/-- When the swap chain's fullscreen state agrees with the tracked mode and
the requested mode equals the current one, `trySetDisplayMode` returns the
current mode without touching any state or issuing any call. -/
theorem trySetDisplayMode_noop (s : RenderThreadState) (m : DisplayMode) (env : TrySetEnv)
    (h1 : env.actualFullscreen = decide (s.m_displayMode = DisplayMode.FULLSCREEN))
    (h2 : m = s.m_displayMode) :
    trySetDisplayMode s m env = (s, s.m_displayMode, noTrySetEffects) := by
  simp [trySetDisplayMode, h1, h2]

/-- C8: every `trySetDisplayMode(m)` call first forces the requested mode to
`WINDOWED` when the swap chain's actual fullscreen state disagrees with the
tracked current mode, and then — when the (possibly forced) request equals
the current mode — returns the current mode without modifying any state. -/
theorem trySetDisplayMode_desync_and_noop (s : RenderThreadState) (m : DisplayMode)
    (env : TrySetEnv) :
    (env.actualFullscreen ≠ decide (s.m_displayMode = DisplayMode.FULLSCREEN) →
      trySetDisplayMode s m env = trySetDisplayMode s DisplayMode.WINDOWED env)
    ∧ ((if env.actualFullscreen ≠ decide (s.m_displayMode = DisplayMode.FULLSCREEN)
          then DisplayMode.WINDOWED else m) = s.m_displayMode →
      trySetDisplayMode s m env = (s, s.m_displayMode, noTrySetEffects)) := by
  constructor
  · intro h
    simp only [trySetDisplayMode, if_pos h]
  · intro h
    by_cases hf : env.actualFullscreen ≠ decide (s.m_displayMode = DisplayMode.FULLSCREEN)
    · rw [if_pos hf] at h
      simp only [trySetDisplayMode, if_pos hf, h]
      simp [← h]
    · rw [if_neg hf] at h
      exact trySetDisplayMode_noop s m env (not_ne_iff.mp hf) h

/-- Witness for C8: a windowed state whose swap chain reports fullscreen
(external desync): a `BORDERLESS` request behaves as a `WINDOWED` one, and
since the forced request equals the current mode, the call is a no-op. -/
theorem trySetDisplayMode_desync_and_noop_witness :
    trySetDisplayMode stateBase DisplayMode.BORDERLESS trySetEnvMismatch
      = trySetDisplayMode stateBase DisplayMode.WINDOWED trySetEnvMismatch
    ∧ trySetDisplayMode stateBase DisplayMode.BORDERLESS trySetEnvMismatch
      = (stateBase, stateBase.m_displayMode, noTrySetEffects) :=
  ⟨(trySetDisplayMode_desync_and_noop stateBase DisplayMode.BORDERLESS trySetEnvMismatch).1
      (by decide),
   (trySetDisplayMode_desync_and_noop stateBase DisplayMode.BORDERLESS trySetEnvMismatch).2
      (by decide)⟩

/-- C9: with automatic output selection (`m_outputIndex == -1`), when
`GetContainingOutput` fails with `DXGI_ERROR_UNSUPPORTED`,
`trySetDisplayMode` abandons the transition: it returns the prior mode with
the state untouched (both display-mode fields unchanged) and performs no
drain, fullscreen change, window reposition/decoration, or surface resize. -/
theorem trySetDisplayMode_output_unsupported (s : RenderThreadState) (m : DisplayMode)
    (env : TrySetEnv)
    (hauto : s.m_config.m_outputIndex = -1)
    (hunsup : env.containingOutputSupported = false) :
    trySetDisplayMode s m env = (s, s.m_displayMode, noTrySetEffects) := by
  by_cases hf : env.actualFullscreen ≠ decide (s.m_displayMode = DisplayMode.FULLSCREEN)
  · by_cases hw : DisplayMode.WINDOWED = s.m_displayMode
    · simp [trySetDisplayMode, hf, hw]
    · simp only [trySetDisplayMode, if_pos hf]
      rw [if_neg hw, if_pos ⟨hauto, hunsup⟩]
  · by_cases hw : m = s.m_displayMode
    · exact trySetDisplayMode_noop s m env (not_ne_iff.mp hf) hw
    · simp only [trySetDisplayMode, if_neg hf]
      rw [if_neg hw, if_pos ⟨hauto, hunsup⟩]

/-- Witness for C9: a windowed state requesting `BORDERLESS` with automatic
output selection while `GetContainingOutput` is unsupported: the call
returns `WINDOWED` with no state change and no effects. -/
theorem trySetDisplayMode_output_unsupported_witness :
    trySetDisplayMode stateBase DisplayMode.BORDERLESS trySetEnvUnsupported
      = (stateBase, stateBase.m_displayMode, noTrySetEffects) :=
  trySetDisplayMode_output_unsupported stateBase DisplayMode.BORDERLESS trySetEnvUnsupported
    rfl rfl

/-! ### C1 — backpressure invariant -/

/-- C1: whenever a `renderFrame` iteration proceeds past the backpressure
wait (is not skipped) — and therefore resets and reuses the current slot's
command allocators — the frame fence's completed value observed at that
moment is ≥ the allocator frame index recorded for the current back-buffer
slot.  The hypothesis is the sync-event semantics: the event armed by
`SetEventOnCompletion(waitForFrameIdx, …)` is signalled only once the fence
has completed `waitForFrameIdx`. -/
theorem renderFrame_backpressure (s : RenderThreadState) (env : RenderFrameEnv)
    (hevent : env.waitResult = WaitResult.object0 →
      s.m_allocatorFrameIndices.getD s.currentBackBufferIndex 0
        ≤ env.fenceCompletedAtWaitReturn)
    (hrendered : (renderFrame s env).2 ≠ FrameOutcome.skipped) :
    s.m_allocatorFrameIndices.getD s.currentBackBufferIndex 0
      ≤ ((renderFrame s env).2).fenceValue := by
  have hp := advanceCounters_preserves s
  have hidx : (advanceCounters s).m_allocatorFrameIndices.getD
      (advanceCounters s).currentBackBufferIndex 0
      = s.m_allocatorFrameIndices.getD s.currentBackBufferIndex 0 := by
    rw [hp.2.2.2.1, hp.2.2.1]
  by_cases hlt : env.fenceCompletedAtCheck
      < (advanceCounters s).m_allocatorFrameIndices.getD (advanceCounters s).currentBackBufferIndex 0
  · rw [List.getD_eq_getElem?_getD] at hlt
    cases hw : env.waitResult with
    | timeout =>
      exfalso
      apply hrendered
      simp [renderFrame, hlt, hw]
    | object0 =>
      have hout : (renderFrame s env).2 = FrameOutcome.rendered env.fenceCompletedAtWaitReturn := by
        simp [renderFrame, hlt, hw]
      rw [hout]
      exact hevent hw
  · have hout : (renderFrame s env).2 = FrameOutcome.rendered env.fenceCompletedAtCheck := by
      rw [List.getD_eq_getElem?_getD] at hlt
      simp [renderFrame, hlt]
    rw [hout]
    rw [hidx] at hlt
    exact not_lt.mp hlt

/-- `stateBase` with slot 0 still owed frame 5. -/
def stateAlloc5 : RenderThreadState :=
  { stateBase with m_allocatorFrameIndices := [5, 2, 3], m_frameIdx := 5 }

/-- A backpressure-wait environment: the fence is at 3 when checked, the
wait succeeds, and the fence is at 7 when the wait returns. -/
def renderEnvWait : RenderFrameEnv := ⟨3, WaitResult.object0, 7⟩

/-- Witness for C1: slot 0 waits for frame 5; the wait returns with the
fence at 7 ≥ 5. -/
theorem renderFrame_backpressure_witness :
    stateAlloc5.m_allocatorFrameIndices.getD stateAlloc5.currentBackBufferIndex 0
      ≤ ((renderFrame stateAlloc5 renderEnvWait).2).fenceValue :=
  renderFrame_backpressure stateAlloc5 renderEnvWait (fun _ => by decide) (by decide)

/-! ### C2 — a timed-out iteration skips the present -/

/-- A skipped `renderFrame` raises `m_skipNextSwap` and leaves the frame
index, the back-buffer slot, the allocator indices and both display-mode
fields unchanged (only the counters of `advanceCounters` moved). -/
theorem renderFrame_skipped_fields (s : RenderThreadState) (env : RenderFrameEnv)
    (h : (renderFrame s env).2 = FrameOutcome.skipped) :
    (renderFrame s env).1.m_skipNextSwap = true
    ∧ (renderFrame s env).1.m_frameIdx = s.m_frameIdx
    ∧ (renderFrame s env).1.currentBackBufferIndex = s.currentBackBufferIndex
    ∧ (renderFrame s env).1.m_allocatorFrameIndices = s.m_allocatorFrameIndices
    ∧ (renderFrame s env).1.m_displayMode = s.m_displayMode
    ∧ (renderFrame s env).1.m_requestedDisplayMode = s.m_requestedDisplayMode := by
  have hp := advanceCounters_preserves s
  by_cases hlt : env.fenceCompletedAtCheck
      < (advanceCounters s).m_allocatorFrameIndices.getD (advanceCounters s).currentBackBufferIndex 0
  · rw [List.getD_eq_getElem?_getD, hp.2.2.2.1, hp.2.2.1] at hlt
    cases hw : env.waitResult with
    | timeout =>
      refine ⟨?_, ?_, ?_, ?_, ?_, ?_⟩ <;>
        simp [renderFrame, hlt, hw, hp.2.1, hp.2.2.1, hp.2.2.2.1, hp.2.2.2.2.1,
          hp.2.2.2.2.2.1]
    | object0 => simp [renderFrame, hlt, hw, hp.2.2.1, hp.2.2.2.1] at h
  · rw [List.getD_eq_getElem?_getD, hp.2.2.2.1, hp.2.2.1] at hlt
    simp [renderFrame, hlt, hp.2.2.1, hp.2.2.2.1] at h

/-- With `m_skipNextSwap` raised and no concurrent display-mode change
pending (the `trySetDisplayMode` call no-ops), `swapBuffers` neither
presents, nor signals the frame fence, nor queries barrier statistics, and
leaves `m_frameIdx`, the current back-buffer slot, and the per-slot
allocator indices untouched. -/
theorem servicePresentBarrierRequest_preserves (s : RenderThreadState)
    (env : Nat → SyncAttemptEnv) :
    (servicePresentBarrierRequest s env).1.m_frameIdx = s.m_frameIdx
    ∧ (servicePresentBarrierRequest s env).1.currentBackBufferIndex = s.currentBackBufferIndex
    ∧ (servicePresentBarrierRequest s env).1.m_allocatorFrameIndices
        = s.m_allocatorFrameIndices := by
  have hsync := syncFuel_preserves 2 s env
  have hforce := forcePresentBarrierChange_preserves (syncFuel 2 s env).1
  unfold servicePresentBarrierRequest sync
  by_cases hp : s.m_presentBarrierChangeRequested = true
  · simp only [hp, if_true, ite_true]
    refine ⟨?_, ?_, ?_⟩ <;> dsimp only <;> split
    · exact hforce.2.1.trans hsync.2.1
    · exact hsync.2.1
    · exact hforce.2.2.1.trans hsync.2.2.1
    · exact hsync.2.2.1
    · exact hforce.2.2.2.1.trans hsync.2.2.2.1
    · exact hsync.2.2.2.1
  · simp only [hp, if_false, ite_false]
    exact ⟨rfl, rfl, rfl⟩

theorem swapBuffers_skip (s : RenderThreadState) (env : SwapBuffersEnv)
    (hskip : s.m_skipNextSwap = true)
    (hfs : env.trySetEnv.actualFullscreen = decide (s.m_displayMode = DisplayMode.FULLSCREEN))
    (hreq : s.m_requestedDisplayMode = s.m_displayMode) :
    (swapBuffers s env).2.didPresent = false
    ∧ (swapBuffers s env).2.didSignalFrameFence = false
    ∧ (swapBuffers s env).2.didQueryStats = false
    ∧ (swapBuffers s env).1.m_frameIdx = s.m_frameIdx
    ∧ (swapBuffers s env).1.currentBackBufferIndex = s.currentBackBufferIndex
    ∧ (swapBuffers s env).1.m_allocatorFrameIndices = s.m_allocatorFrameIndices := by
  have hnoop := trySetDisplayMode_noop s s.m_requestedDisplayMode env.trySetEnv hfs hreq
  simp only [swapBuffers, hskip, hnoop, if_true, ite_true]
  refine ⟨trivial, trivial, trivial, ?_, ?_, ?_⟩
  · exact (servicePresentBarrierRequest_preserves _ _).1
  · exact (servicePresentBarrierRequest_preserves _ _).2.1
  · exact (servicePresentBarrierRequest_preserves _ _).2.2

/-- C2: when the backpressure fence wait times out, `renderFrame` returns
early with the iteration marked as skipped, and the following `swapBuffers`
neither calls `Present`, nor increments `m_frameIdx`, nor signals the
completion fence, nor queries/updates present-barrier statistics; the
back-buffer slot and the per-slot allocator indices are unchanged, so the
next iteration retries the same slot.  (The no-concurrent-mode-change
hypotheses make the routine `trySetDisplayMode` call of `swapBuffers` a
no-op, as in steady state.) -/
theorem renderFrame_timeout_skips_swap (s : RenderThreadState) (envR : RenderFrameEnv)
    (envS : SwapBuffersEnv)
    (hskip : (renderFrame s envR).2 = FrameOutcome.skipped)
    (hfs : envS.trySetEnv.actualFullscreen = decide (s.m_displayMode = DisplayMode.FULLSCREEN))
    (hreq : s.m_requestedDisplayMode = s.m_displayMode) :
    (renderFrame s envR).1.m_skipNextSwap = true
    ∧ (swapBuffers (renderFrame s envR).1 envS).2.didPresent = false
    ∧ (swapBuffers (renderFrame s envR).1 envS).2.didSignalFrameFence = false
    ∧ (swapBuffers (renderFrame s envR).1 envS).2.didQueryStats = false
    ∧ (swapBuffers (renderFrame s envR).1 envS).1.m_frameIdx = s.m_frameIdx
    ∧ (swapBuffers (renderFrame s envR).1 envS).1.currentBackBufferIndex
        = s.currentBackBufferIndex
    ∧ (swapBuffers (renderFrame s envR).1 envS).1.m_allocatorFrameIndices
        = s.m_allocatorFrameIndices := by
  have hf := renderFrame_skipped_fields s envR hskip
  have hrm : (renderFrame s envR).1.m_requestedDisplayMode
      = (renderFrame s envR).1.m_displayMode := by
    rw [hf.2.2.2.2.2, hreq, ← hf.2.2.2.2.1]
  have hfs' : envS.trySetEnv.actualFullscreen
      = decide ((renderFrame s envR).1.m_displayMode = DisplayMode.FULLSCREEN) := by
    rw [hf.2.2.2.2.1]; exact hfs
  have hmain := swapBuffers_skip (renderFrame s envR).1 envS hf.1 hfs' hrm
  refine ⟨hf.1, hmain.1, hmain.2.1, hmain.2.2.1, ?_, ?_, ?_⟩
  · exact hmain.2.2.2.1.trans hf.2.1
  · exact hmain.2.2.2.2.1.trans hf.2.2.1
  · exact hmain.2.2.2.2.2.trans hf.2.2.2.1

/-- A backpressure environment whose wait times out with the fence stuck
at 0. -/
def renderEnvTimeout : RenderFrameEnv := ⟨0, WaitResult.timeout, 0⟩

/-- A routine `swapBuffers` environment matching `stateAlloc5`'s steady
state (no pending mode change, consistent fullscreen state). -/
def swapEnvBase : SwapBuffersEnv := ⟨0, 0, 800, 600, resizeEnvBase, trySetEnvConsistent, syncEnvOk⟩

/-- Witness for C2: slot 0 owes frame 5, the fence is stuck at 0, and the
wait times out: the iteration is skipped and nothing is presented, signalled
or queried; the slot is retried. -/
theorem renderFrame_timeout_skips_swap_witness :
    (renderFrame stateAlloc5 renderEnvTimeout).1.m_skipNextSwap = true
    ∧ (swapBuffers (renderFrame stateAlloc5 renderEnvTimeout).1 swapEnvBase).2.didPresent = false
    ∧ (swapBuffers (renderFrame stateAlloc5 renderEnvTimeout).1 swapEnvBase).2.didSignalFrameFence
        = false
    ∧ (swapBuffers (renderFrame stateAlloc5 renderEnvTimeout).1 swapEnvBase).2.didQueryStats
        = false
    ∧ (swapBuffers (renderFrame stateAlloc5 renderEnvTimeout).1 swapEnvBase).1.m_frameIdx
        = stateAlloc5.m_frameIdx
    ∧ (swapBuffers (renderFrame stateAlloc5 renderEnvTimeout).1 swapEnvBase).1.currentBackBufferIndex
        = stateAlloc5.currentBackBufferIndex
    ∧ (swapBuffers (renderFrame stateAlloc5 renderEnvTimeout).1 swapEnvBase).1.m_allocatorFrameIndices
        = stateAlloc5.m_allocatorFrameIndices :=
  renderFrame_timeout_skips_swap stateAlloc5 renderEnvTimeout swapEnvBase
    (by decide) (by decide) (by decide)
